import Mathlib

/-!
Formal model of the traffic-correlation tool (`tor_correlation.py`).

The Python floats (timestamps, the time window, scores) are modelled as exact
rationals `ℚ`; byte counts are modelled as integers `ℤ` (Python integers).
The `ZeroDivisionError` that Python raises when a qualifying pair has
`max(entry.bytes, exit.bytes) = 0` is modelled by returning `Except.error ()`:
a raised exception aborts the whole call, so `find_correlations` returns
`Except Unit (List CandidateLink)`.
-/

/-- A timestamped byte-count record attributed to one node
(`class TrafficFlow` in the source). -/
structure TrafficFlow where
  node_id : String
  node_name : String
  timestamp : ℚ
  bytes : ℤ
deriving Repr, DecidableEq

/-- A scored candidate link: the dictionary appended to `matches` inside
`find_correlations` (keys `entry_node`, `exit_node`, `confidence`, `delay`,
`bytes`). -/
structure CandidateLink where
  entry_node : String
  exit_node : String
  confidence : ℚ
  delay : ℚ
  bytes : ℤ
deriving Repr, DecidableEq

/-- `byte_score = (1 - (byte_diff / max(entry.bytes, exit.bytes))) * 50`
(source line 84). -/
def byte_score (byte_diff maxBytes : ℚ) : ℚ :=
  (1 - byte_diff / maxBytes) * 50

/-- `timing_score = (1 - (delay / time_window)) * 50` (source line 85). -/
def timing_score (delay time_window : ℚ) : ℚ :=
  (1 - delay / time_window) * 50

/-- The body of the inner loop of `find_correlations` (source lines 78-94) for
one `(entry, exit)` pair: `Except.ok (some link)` when the pair qualifies and
a link is appended, `Except.ok none` when one of the two filters rejects the
pair, and `Except.error ()` when the pair passes both filters but
`max entry.bytes x.bytes = 0`, where Python raises `ZeroDivisionError`. -/
def correlatePair (time_window : ℚ) (entry x : TrafficFlow) :
    Except Unit (Option CandidateLink) :=
  if |entry.bytes - x.bytes| < 100 then
    if 0 < x.timestamp - entry.timestamp ∧
        x.timestamp - entry.timestamp < time_window then
      if max entry.bytes x.bytes = 0 then
        Except.error ()
      else
        Except.ok (some
          { entry_node := entry.node_name
            exit_node := x.node_name
            confidence := byte_score ((|entry.bytes - x.bytes| : ℤ) : ℚ)
                ((max entry.bytes x.bytes : ℤ) : ℚ)
                + timing_score (x.timestamp - entry.timestamp) time_window
            delay := x.timestamp - entry.timestamp
            bytes := entry.bytes })
    else Except.ok none
  else Except.ok none

/-- The inner `for exit in exit_flows` loop of `find_correlations` for a fixed
entry sample: collects the links in exit order, propagating a raised
`ZeroDivisionError`. -/
def correlateOne (time_window : ℚ) (entry : TrafficFlow) :
    List TrafficFlow → Except Unit (List CandidateLink)
  | [] => Except.ok []
  | x :: xs =>
    match correlatePair time_window entry x with
    | Except.error u => Except.error u
    | Except.ok m =>
      match correlateOne time_window entry xs with
      | Except.error u => Except.error u
      | Except.ok ms =>
        Except.ok (match m with | some mm => mm :: ms | none => ms)

/-- `find_correlations(entry_flows, exit_flows, time_window=5)`
(source lines 72-96): the nested loop, entries outer and exits inner, with
exception propagation. -/
def find_correlations (entry_flows exit_flows : List TrafficFlow)
    (time_window : ℚ := 5) : Except Unit (List CandidateLink) :=
  match entry_flows with
  | [] => Except.ok []
  | e :: es =>
    match correlateOne time_window e exit_flows with
    | Except.error u => Except.error u
    | Except.ok ms =>
      match find_correlations es exit_flows time_window with
      | Except.error u => Except.error u
      | Except.ok ms2 => Except.ok (ms ++ ms2)

/-- `true` exactly when `find_correlations` produces a candidate link for the
pair `(entry, x)`. -/
def producesLink (time_window : ℚ) (entry x : TrafficFlow) : Bool :=
  match correlatePair time_window entry x with
  | Except.ok (some _) => true
  | _ => false

/-- The candidate link (if any) that the loop body produces for one pair; a
raised error yields no link. -/
def linkOf (time_window : ℚ) (entry x : TrafficFlow) : Option CandidateLink :=
  (correlatePair time_window entry x).toOption.join

/-- The spec's description of the result: "the cross-product scan
entries-outer, exits-inner, filtered by the matching predicate". This is the
spec-side definition that `find_correlations` is compared against. -/
def crossScan (time_window : ℚ) (entry_flows exit_flows : List TrafficFlow) :
    List CandidateLink :=
  entry_flows.flatMap fun e => exit_flows.filterMap fun x => linkOf time_window e x

/-- `create_sample_traffic()` (source lines 52-68). -/
def create_sample_traffic : List TrafficFlow × List TrafficFlow :=
  ([⟨"e1", "relay_guard_1", 100, 1000⟩,
    ⟨"e1", "relay_guard_1", 101, 500⟩,
    ⟨"e1", "relay_guard_1", 102, 1500⟩,
    ⟨"e1", "relay_guard_1", 103, 2000⟩],
   [⟨"x1", "relay_exit_7", 103.2, 1000⟩,
    ⟨"x1", "relay_exit_7", 104.2, 500⟩,
    ⟨"x1", "relay_exit_7", 105.2, 1500⟩,
    ⟨"x1", "relay_exit_7", 106.2, 2000⟩])

/-- A relay record as consumed by `extract_nodes`: `flags`, optional
`nickname`, optional `fingerprint`, `addresses`. -/
structure Relay where
  flags : List String
  nickname : Option String
  fingerprint : Option String
  addresses : List String
deriving Repr, DecidableEq

/-- The per-relay `node_info` dictionary built by `extract_nodes`
(source lines 29-34): `nickname = relay.get('nickname',
relay.get('fingerprint', 'unknown')[:16])`. -/
structure NodeInfo where
  nickname : String
  addresses : List String
deriving Repr, DecidableEq

def node_info (relay : Relay) : NodeInfo :=
  { nickname :=
      match relay.nickname with
      | some n => n
      | none => (relay.fingerprint.getD "unknown").take 16
    addresses := relay.addresses }

/-- `extract_nodes` (source lines 22-41): partitions relays into
`(entry_nodes, exit_nodes)` by whether `'Exit' in flags`, preserving input
order in each list. -/
def extract_nodes : List Relay → List NodeInfo × List NodeInfo
  | [] => ([], [])
  | relay :: rest =>
    let p := extract_nodes rest
    if relay.flags.contains "Exit" then
      (p.1, node_info relay :: p.2)
    else
      (node_info relay :: p.1, p.2)

/-- An entry sample with byte count `0` (used for the zero-byte edge case). -/
def zeroEntry : TrafficFlow := ⟨"e0", "guard_zero", 100, 0⟩

/-- An exit sample with byte count `0`, one second after `zeroEntry`. -/
def zeroExit : TrafficFlow := ⟨"x0", "exit_zero", 101, 0⟩

/-! ### Helper lemmas about the loop structure -/

/-- Inversion for the loop body: a link is produced exactly when both filters
pass and the divisor is non-zero, and then the link is the literal dictionary
from source lines 88-94. -/
theorem correlatePair_ok_some_iff {time_window : ℚ} {entry x : TrafficFlow}
    {m : CandidateLink} :
    correlatePair time_window entry x = Except.ok (some m) ↔
      |entry.bytes - x.bytes| < 100 ∧
      0 < x.timestamp - entry.timestamp ∧
      x.timestamp - entry.timestamp < time_window ∧
      max entry.bytes x.bytes ≠ 0 ∧
      m = { entry_node := entry.node_name
            exit_node := x.node_name
            confidence := byte_score ((|entry.bytes - x.bytes| : ℤ) : ℚ)
                ((max entry.bytes x.bytes : ℤ) : ℚ)
                + timing_score (x.timestamp - entry.timestamp) time_window
            delay := x.timestamp - entry.timestamp
            bytes := entry.bytes } := by
  unfold correlatePair
  split_ifs with h1 h2 h3
  · constructor
    · intro h
      exact absurd h (by simp)
    · rintro ⟨-, -, -, hne, -⟩
      exact absurd h3 hne
  · constructor
    · intro h
      injection h with h
      injection h with h
      exact ⟨h1, h2.1, h2.2, h3, h.symm⟩
    · rintro ⟨-, -, -, -, rfl⟩
      rfl
  · constructor
    · intro h
      injection h with h
      exact Option.noConfusion h
    · rintro ⟨-, hd, htw, -, -⟩
      exact absurd ⟨hd, htw⟩ h2
  · constructor
    · intro h
      injection h with h
      exact Option.noConfusion h
    · rintro ⟨hb, -, -, -, -⟩
      exact absurd hb h1

theorem linkOf_eq_some {time_window : ℚ} {entry x : TrafficFlow}
    {m : CandidateLink} :
    linkOf time_window entry x = some m ↔
      correlatePair time_window entry x = Except.ok (some m) := by
  unfold linkOf
  cases h : correlatePair time_window entry x with
  | error u => simp [Except.toOption]
  | ok m' => simp [Except.toOption]

theorem correlateOne_ok {time_window : ℚ} {entry : TrafficFlow} :
    ∀ {xs : List TrafficFlow} {ms : List CandidateLink},
      correlateOne time_window entry xs = Except.ok ms →
      ms = xs.filterMap fun x => linkOf time_window entry x
  | [], ms, h => by
      simp only [correlateOne] at h
      cases h
      simp
  | x :: xs, ms, h => by
      rw [correlateOne] at h
      cases hp : correlatePair time_window entry x with
      | error u => rw [hp] at h; cases h
      | ok m => ?_
      rw [hp] at h
      cases hr : correlateOne time_window entry xs with
      | error u => rw [hr] at h; cases h
      | ok ms' => ?_
      rw [hr] at h
      cases h
      have hms' := correlateOne_ok hr
      have hl : linkOf time_window entry x = (Except.ok m : Except Unit _).toOption.join := by
        unfold linkOf; rw [hp]
      cases m with
      | none => simp [List.filterMap_cons, hl, Except.toOption, hms']
      | some mm => simp [List.filterMap_cons, hl, Except.toOption, hms']

theorem correlateOne_isOk {time_window : ℚ} {entry : TrafficFlow} :
    ∀ {xs : List TrafficFlow},
      (∀ x ∈ xs, (correlatePair time_window entry x).isOk = true) →
      correlateOne time_window entry xs =
        Except.ok (xs.filterMap fun x => linkOf time_window entry x)
  | [], _ => rfl
  | x :: xs, h => by
      have hx := h x (List.mem_cons_self x xs)
      rw [correlateOne]
      cases hp : correlatePair time_window entry x with
      | error u => rw [hp] at hx; simp [Except.isOk, Except.toBool] at hx
      | ok m => ?_
      rw [correlateOne_isOk fun y hy => h y (List.mem_cons_of_mem x hy)]
      have hl : linkOf time_window entry x = (Except.ok m : Except Unit _).toOption.join := by
        unfold linkOf; rw [hp]
      cases m with
      | none => simp [List.filterMap_cons, hl, Except.toOption]
      | some mm => simp [List.filterMap_cons, hl, Except.toOption]

theorem find_correlations_ok {time_window : ℚ} {xs : List TrafficFlow} :
    ∀ {es : List TrafficFlow} {ms : List CandidateLink},
      find_correlations es xs time_window = Except.ok ms →
      ms = crossScan time_window es xs
  | [], ms, h => by
      cases h
      simp [crossScan]
  | e :: es, ms, h => by
      rw [find_correlations] at h
      cases h1 : correlateOne time_window e xs with
      | error u => rw [h1] at h; cases h
      | ok ms1 => ?_
      rw [h1] at h
      cases h2 : find_correlations es xs time_window with
      | error u => rw [h2] at h; cases h
      | ok ms2 => ?_
      rw [h2] at h
      cases h
      rw [crossScan, List.flatMap_cons, ← crossScan, ← find_correlations_ok h2,
        correlateOne_ok h1]

theorem find_correlations_isOk {time_window : ℚ} {xs : List TrafficFlow} :
    ∀ {es : List TrafficFlow},
      (∀ e ∈ es, ∀ x ∈ xs, (correlatePair time_window e x).isOk = true) →
      find_correlations es xs time_window =
        Except.ok (crossScan time_window es xs)
  | [], _ => by simp [find_correlations, crossScan]
  | e :: es, h => by
      rw [find_correlations,
        correlateOne_isOk (h e (List.mem_cons_self e es)),
        find_correlations_isOk fun e' he' => h e' (List.mem_cons_of_mem e he')]
      simp [crossScan, List.flatMap_cons]

theorem mem_crossScan {time_window : ℚ} {es xs : List TrafficFlow}
    {m : CandidateLink} :
    m ∈ crossScan time_window es xs ↔
      ∃ e ∈ es, ∃ x ∈ xs, correlatePair time_window e x = Except.ok (some m) := by
  simp only [crossScan, List.mem_flatMap, List.mem_filterMap, linkOf_eq_some]

/-! ### Claims -/

/-- C1 (counterexample to the claim as stated): for the pair of zero-byte
samples one second apart, `|e.byte_count - x.byte_count| < 100` and
`0 < delay < W` both hold, yet no candidate link is produced — the loop body
raises `ZeroDivisionError` instead — so the stated "if and only if" fails. -/
theorem producesLink_iff_fails_zero_pair :
    ¬ (producesLink 5 zeroEntry zeroExit = true ↔
        (|zeroEntry.bytes - zeroExit.bytes| < 100 ∧
         0 < zeroExit.timestamp - zeroEntry.timestamp ∧
         zeroExit.timestamp - zeroEntry.timestamp < 5)) := by
  norm_num [producesLink, correlatePair, zeroEntry, zeroExit]

/-- C1 (amended): for every pair with `max(e.byte_count, x.byte_count) ≠ 0`,
a candidate link is produced for `(e, x)` iff
`|e.byte_count - x.byte_count| < 100` and `0 < delay < W`; and for every pair
(any byte counts) failing one of those conditions, no link is produced. -/
theorem producesLink_iff (time_window : ℚ) (entry x : TrafficFlow) :
    (max entry.bytes x.bytes ≠ 0 →
      (producesLink time_window entry x = true ↔
        (|entry.bytes - x.bytes| < 100 ∧
         0 < x.timestamp - entry.timestamp ∧
         x.timestamp - entry.timestamp < time_window))) ∧
    (¬ (|entry.bytes - x.bytes| < 100 ∧
        0 < x.timestamp - entry.timestamp ∧
        x.timestamp - entry.timestamp < time_window) →
      producesLink time_window entry x = false) := by
  unfold producesLink correlatePair
  split_ifs with h1 h2 h3 <;> simp_all

theorem producesLink_iff_witness :
    producesLink 5 ⟨"e1", "relay_guard_1", 100, 1000⟩
      ⟨"x1", "relay_exit_7", 103.2, 1000⟩ = true :=
  ((producesLink_iff 5 ⟨"e1", "relay_guard_1", 100, 1000⟩
      ⟨"x1", "relay_exit_7", 103.2, 1000⟩).1 (by norm_num)).mpr (by norm_num)

/-- C2: whenever the loop body produces a candidate link for `(e, x)`, its
confidence is `(1 - byte_diff / max(e.byte_count, x.byte_count)) * 50 +
(1 - delay / W) * 50` and its delay field is `x.timestamp - e.timestamp`. -/
theorem link_confidence_delay (time_window : ℚ) (entry x : TrafficFlow)
    (m : CandidateLink)
    (h : correlatePair time_window entry x = Except.ok (some m)) :
    m.confidence =
        (1 - ((|entry.bytes - x.bytes| : ℤ) : ℚ) /
            ((max entry.bytes x.bytes : ℤ) : ℚ)) * 50
        + (1 - (x.timestamp - entry.timestamp) / time_window) * 50 ∧
      m.delay = x.timestamp - entry.timestamp := by
  obtain ⟨-, -, -, -, rfl⟩ := correlatePair_ok_some_iff.mp h
  exact ⟨rfl, rfl⟩

theorem link_confidence_delay_witness :
    ((⟨"relay_guard_1", "relay_exit_7", 68, 3.2, 1000⟩ : CandidateLink).confidence =
        (1 - ((|(1000 : ℤ) - 1000| : ℤ) : ℚ) / ((max (1000 : ℤ) 1000 : ℤ) : ℚ)) * 50
        + (1 - ((103.2 : ℚ) - 100) / 5) * 50) ∧
      (⟨"relay_guard_1", "relay_exit_7", 68, 3.2, 1000⟩ : CandidateLink).delay =
        (103.2 : ℚ) - 100 :=
  link_confidence_delay 5 ⟨"e1", "relay_guard_1", 100, 1000⟩
    ⟨"x1", "relay_exit_7", 103.2, 1000⟩
    ⟨"relay_guard_1", "relay_exit_7", 68, 3.2, 1000⟩
    (by norm_num [correlatePair, byte_score, timing_score])

/-- C3: on the fixture from `create_sample_traffic` with `W = 5`, the matcher
returns exactly four links, the i-th entry paired with the i-th exit, each
with delay `3.2` seconds and confidence exactly `68`. -/
theorem fixture_matches :
    find_correlations create_sample_traffic.1 create_sample_traffic.2 5 =
      Except.ok
        [⟨"relay_guard_1", "relay_exit_7", 68, 3.2, 1000⟩,
         ⟨"relay_guard_1", "relay_exit_7", 68, 3.2, 500⟩,
         ⟨"relay_guard_1", "relay_exit_7", 68, 3.2, 1500⟩,
         ⟨"relay_guard_1", "relay_exit_7", 68, 3.2, 2000⟩] := by
  norm_num [create_sample_traffic, find_correlations, correlateOne, correlatePair,
    byte_score, timing_score]

/-- C5: a pair of samples that both carry `byte_count = 0` and whose delay
lies strictly inside the window reaches the division by `max(0, 0) = 0`;
`find_correlations` raises (returns the error) instead of a result. -/
theorem zero_pair_raises (entry x : TrafficFlow) (he : entry.bytes = 0)
    (hx : x.bytes = 0) (hd : 0 < x.timestamp - entry.timestamp)
    (hw : x.timestamp - entry.timestamp < 5) :
    find_correlations [entry] [x] 5 = Except.error () := by
  have hp : correlatePair 5 entry x = Except.error () := by
    unfold correlatePair
    norm_num [he, hx, hd, hw]
  simp [find_correlations, correlateOne, hp]

theorem zero_pair_raises_witness :
    find_correlations [zeroEntry] [zeroExit] 5 = Except.error () :=
  zero_pair_raises zeroEntry zeroExit rfl rfl
    (by norm_num [zeroEntry, zeroExit]) (by norm_num [zeroEntry, zeroExit])

/-- C4: every candidate link produced from samples with non-negative byte
counts has confidence strictly above `0` and at most `100`. -/
theorem confidence_pos_le_hundred (time_window : ℚ)
    (es xs : List TrafficFlow) (ms : List CandidateLink) (m : CandidateLink)
    (hes : ∀ f ∈ es, 0 ≤ f.bytes) (hxs : ∀ f ∈ xs, 0 ≤ f.bytes)
    (hok : find_correlations es xs time_window = Except.ok ms)
    (hm : m ∈ ms) :
    0 < m.confidence ∧ m.confidence ≤ 100 := by
  obtain ⟨e, he, x, hx, hpair⟩ :=
    mem_crossScan.mp (find_correlations_ok hok ▸ hm)
  obtain ⟨hb, hd, htw, hmax, rfl⟩ := correlatePair_ok_some_iff.mp hpair
  have h0e : (0 : ℤ) ≤ e.bytes := hes e he
  have h0x : (0 : ℤ) ≤ x.bytes := hxs x hx
  have hdM : |e.bytes - x.bytes| ≤ max e.bytes x.bytes := by
    rcases le_total e.bytes x.bytes with hle | hle
    · rw [abs_of_nonpos (sub_nonpos.mpr hle), max_eq_right hle]
      linarith
    · rw [abs_of_nonneg (sub_nonneg.mpr hle), max_eq_left hle]
      linarith
  have hM0 : (0 : ℤ) < max e.bytes x.bytes :=
    lt_of_le_of_ne (le_trans h0e (le_max_left _ _)) (Ne.symm hmax)
  have hMq : (0 : ℚ) < ((max e.bytes x.bytes : ℤ) : ℚ) := by exact_mod_cast hM0
  have hdq : (0 : ℚ) ≤ ((|e.bytes - x.bytes| : ℤ) : ℚ) := by
    exact_mod_cast abs_nonneg _
  have hdMq : ((|e.bytes - x.bytes| : ℤ) : ℚ) ≤ ((max e.bytes x.bytes : ℤ) : ℚ) := by
    exact_mod_cast hdM
  have hb1 : ((|e.bytes - x.bytes| : ℤ) : ℚ) / ((max e.bytes x.bytes : ℤ) : ℚ) ≤ 1 :=
    (div_le_one hMq).mpr hdMq
  have hb2 : (0 : ℚ) ≤ ((|e.bytes - x.bytes| : ℤ) : ℚ) / ((max e.bytes x.bytes : ℤ) : ℚ) :=
    div_nonneg hdq hMq.le
  have htw0 : (0 : ℚ) < time_window := lt_trans hd htw
  have ht1 : (x.timestamp - e.timestamp) / time_window < 1 :=
    (div_lt_one htw0).mpr htw
  have ht2 : (0 : ℚ) < (x.timestamp - e.timestamp) / time_window :=
    div_pos hd htw0
  simp only [byte_score, timing_score]
  constructor <;> linarith

theorem confidence_pos_le_hundred_witness :
    0 < (⟨"g", "x", 175 / 2, 1, 1000⟩ : CandidateLink).confidence ∧
      (⟨"g", "x", 175 / 2, 1, 1000⟩ : CandidateLink).confidence ≤ 100 :=
  confidence_pos_le_hundred 5 [⟨"ge", "g", 100, 1000⟩] [⟨"xe", "x", 101, 950⟩]
    [⟨"g", "x", 175 / 2, 1, 1000⟩] ⟨"g", "x", 175 / 2, 1, 1000⟩
    (by simp) (by simp)
    (by norm_num [find_correlations, correlateOne, correlatePair,
      byte_score, timing_score])
    (by simp)

/-- C6: the confidence formula of the correlator is monotonically
non-increasing in the byte difference (delay and divisor held fixed) and in
the delay (byte difference held fixed), for any qualifying configuration
(positive divisor and positive window). -/
theorem confidence_antitone (time_window maxBytes d d' dly dly' : ℚ)
    (hM : 0 < maxBytes) (htw : 0 < time_window) :
    (d ≤ d' →
      byte_score d' maxBytes + timing_score dly time_window ≤
        byte_score d maxBytes + timing_score dly time_window) ∧
    (dly ≤ dly' →
      byte_score d maxBytes + timing_score dly' time_window ≤
        byte_score d maxBytes + timing_score dly time_window) := by
  constructor
  · intro hdd
    have hdiv : d / maxBytes ≤ d' / maxBytes := by gcongr
    simp only [byte_score]
    linarith
  · intro hdd
    have hdiv : dly / time_window ≤ dly' / time_window := by gcongr
    simp only [timing_score]
    linarith

theorem confidence_antitone_witness :
    (byte_score 2 10 + timing_score 1 5 ≤ byte_score 1 10 + timing_score 1 5) ∧
      (byte_score 1 10 + timing_score 2 5 ≤ byte_score 1 10 + timing_score 1 5) :=
  ⟨(confidence_antitone 5 10 1 2 1 1 (by norm_num) (by norm_num)).1 (by norm_num),
   (confidence_antitone 5 10 1 1 1 2 (by norm_num) (by norm_num)).2 (by norm_num)⟩

/-- C7: a completed run returns exactly the cross-product scan, entries outer
and exits inner, filtered by the matching predicate — so matches of an
earlier entry precede those of a later entry, and within one entry the
matches appear in exit order. -/
theorem find_correlations_eq_crossScan (time_window : ℚ)
    (es xs : List TrafficFlow) (ms : List CandidateLink)
    (h : find_correlations es xs time_window = Except.ok ms) :
    ms = crossScan time_window es xs :=
  find_correlations_ok h

theorem find_correlations_eq_crossScan_witness :
    [(⟨"g", "x", 175 / 2, 1, 1000⟩ : CandidateLink)] =
      crossScan 5 [⟨"ge", "g", 100, 1000⟩] [⟨"xe", "x", 101, 950⟩] :=
  find_correlations_eq_crossScan 5 [⟨"ge", "g", 100, 1000⟩]
    [⟨"xe", "x", 101, 950⟩] [⟨"g", "x", 175 / 2, 1, 1000⟩]
    (by norm_num [find_correlations, correlateOne, correlatePair,
      byte_score, timing_score])

/-- C8: an empty entry list or an empty exit list yields `Except.ok []`, and
for inputs of any (also different) lengths whose pairs all avoid the
zero-division case the run completes without error. -/
theorem empty_or_mismatched_ok (es xs : List TrafficFlow) (time_window : ℚ) :
    ((es = [] ∨ xs = []) → find_correlations es xs time_window = Except.ok []) ∧
    ((∀ e ∈ es, ∀ x ∈ xs, (correlatePair time_window e x).isOk = true) →
      find_correlations es xs time_window =
        Except.ok (crossScan time_window es xs)) := by
  constructor
  · rintro (rfl | rfl)
    · rfl
    · induction es with
      | nil => rfl
      | cons e es ih => simp [find_correlations, correlateOne, ih]
  · exact find_correlations_isOk

theorem empty_or_mismatched_ok_witness :
    find_correlations [⟨"ae", "a", 100, 1000⟩, ⟨"be", "b", 101, 200⟩]
        [⟨"ce", "c", 102, 950⟩] 5 =
      Except.ok (crossScan 5 [⟨"ae", "a", 100, 1000⟩, ⟨"be", "b", 101, 200⟩]
        [⟨"ce", "c", 102, 950⟩]) :=
  (empty_or_mismatched_ok [⟨"ae", "a", 100, 1000⟩, ⟨"be", "b", 101, 200⟩]
      [⟨"ce", "c", 102, 950⟩] 5).2
    (by
      intro e he x hx
      fin_cases he <;> fin_cases hx <;>
        norm_num [correlatePair, Except.isOk, Except.toBool])

/-- C9: `extract_nodes` partitions the relay records — the entry list is the
(order-preserving) image of the relays without the `Exit` flag, the exit list
that of the relays with it, and the two lengths sum to the input length. -/
theorem extract_nodes_partition (relays : List Relay) :
    extract_nodes relays =
      ((relays.filter fun r => !(r.flags.contains "Exit")).map node_info,
       (relays.filter fun r => r.flags.contains "Exit").map node_info) ∧
    (extract_nodes relays).1.length + (extract_nodes relays).2.length =
      relays.length := by
  induction relays with
  | nil => exact ⟨rfl, rfl⟩
  | cons r rs ih =>
    obtain ⟨ih1, ih2⟩ := ih
    by_cases hr : "Exit" ∈ r.flags
    · constructor
      · simp [extract_nodes, hr, ih1, List.filter_cons]
      · simp only [extract_nodes, List.length_cons]
        simp [hr]
        omega
    · constructor
      · simp [extract_nodes, hr, ih1, List.filter_cons]
      · simp only [extract_nodes, List.length_cons]
        simp [hr]
        omega

/-- C10: every link in a completed run comes from a pair `(e, x)` of the two
input lists, and its `bytes` field is the entry sample's byte count. -/
theorem link_bytes_eq_entry (time_window : ℚ) (es xs : List TrafficFlow)
    (ms : List CandidateLink) (m : CandidateLink)
    (hok : find_correlations es xs time_window = Except.ok ms) (hm : m ∈ ms) :
    ∃ e ∈ es, ∃ x ∈ xs,
      correlatePair time_window e x = Except.ok (some m) ∧ m.bytes = e.bytes := by
  obtain ⟨e, he, x, hx, hp⟩ :=
    mem_crossScan.mp (find_correlations_ok hok ▸ hm)
  refine ⟨e, he, x, hx, hp, ?_⟩
  obtain ⟨-, -, -, -, rfl⟩ := correlatePair_ok_some_iff.mp hp
  rfl

theorem link_bytes_eq_entry_witness :
    ∃ e ∈ [(⟨"ge", "g", 100, 1000⟩ : TrafficFlow)],
      ∃ x ∈ [(⟨"xe", "x", 101, 950⟩ : TrafficFlow)],
        correlatePair 5 e x =
            Except.ok (some ⟨"g", "x", 175 / 2, 1, 1000⟩) ∧
          (⟨"g", "x", 175 / 2, 1, 1000⟩ : CandidateLink).bytes = e.bytes :=
  link_bytes_eq_entry 5 [⟨"ge", "g", 100, 1000⟩] [⟨"xe", "x", 101, 950⟩]
    [⟨"g", "x", 175 / 2, 1, 1000⟩] ⟨"g", "x", 175 / 2, 1, 1000⟩
    (by norm_num [find_correlations, correlateOne, correlatePair,
      byte_score, timing_score])
    (by simp)
